import Mathlib

/-!
Shallow embedding of the resilient knowledge-store layer of the
clash-royale-bot repository: the store adapter (`redis_card_manager.py`),
the fallback controller (`fallback_manager.py`), the latency monitor
(`performance_monitor.py`), the backup service (`data_backup_manager.py`)
and the feature gate (`feature_manager.py`).

Effectful boundaries (the network, the clock, the filesystem) are made
explicit parameters: the outcome of a remote call, the current time, and
the parsed content of a file each become an argument of the embedded
function, so every definition is a total, computable Lean function whose
control flow mirrors the Python source line by line.
-/

/-- A card record, as the Python code handles it: a loosely-typed dict.
We model it as an association list of field name to string value; only
emptiness and equality of records matter to the properties below. -/
abbrev Card := List (String × String)

/-- The card map held in `json_cards` (name to record). -/
abbrev Cards := List (String × Card)

/-- The fields of `config.BotConfig` the store layer reads. -/
structure BotConfig where
  ENABLE_REDIS : Bool
  MAX_REDIS_LATENCY_MS : ℚ
  deriving Repr, DecidableEq

/-- The mutable state of `RedisCardManager` shared with the fallback
controller: availability flag, fallback counter, last fallback time and
the JSON fallback card map. -/
structure RState where
  redis_available : Bool
  fallback_count : ℕ
  last_fallback_time : ℚ
  json_cards : Cards
  deriving Repr, DecidableEq

/-- Outcome of the initial Redis handshake in `_initialize_redis`: either
the ping answered (with a measured latency in ms) or an exception was
raised while connecting. -/
inductive ConnectOutcome where
  | ok (latencyMs : ℚ)
  | exn
  deriving Repr, DecidableEq

/-- Whether a `ConnectOutcome` is the exception case. -/
def ConnectOutcome.isExn : ConnectOutcome → Bool
  | .exn => true
  | .ok _ => false

/-- Outcome of one timed Redis operation inside
`_redis_operation_with_fallback`: a value with its latency, or a raised
exception. -/
inductive OpResult (α : Type) where
  | ok (v : α) (latencyMs : ℚ)
  | exn
  deriving Repr, DecidableEq

/-- `RedisCardManager._load_json_fallback`: parse `cards.json`; on any
exception (file absent or malformed, `loadResult = none`) the map is set
to empty, never raising to the caller. -/
def load_json_fallback (loadResult : Option Cards) (st : RState) : RState :=
  match loadResult with
  | some cards => { st with json_cards := cards }
  | none => { st with json_cards := [] }

/-- `RedisCardManager._trigger_fallback`: flip availability off, stamp the
time, bump the counter. -/
def trigger_fallback (now : ℚ) (st : RState) : RState :=
  { st with
    redis_available := false
    last_fallback_time := now
    fallback_count := st.fallback_count + 1 }

/-- `RedisCardManager._initialize_redis`: on a successful ping, availability
is true unless the measured latency exceeds `MAX_REDIS_LATENCY_MS`; on an
exception, availability is false and `fallback_count` is incremented. -/
def initialize_redis (cfg : BotConfig) (o : ConnectOutcome) (st : RState) : RState :=
  match o with
  | .ok lat =>
      if cfg.MAX_REDIS_LATENCY_MS < lat then
        { st with redis_available := false }
      else
        { st with redis_available := true }
  | .exn =>
      { st with
        redis_available := false
        fallback_count := st.fallback_count + 1 }

/-- `RedisCardManager.__init__`: always load the JSON fallback, then try
Redis only when `ENABLE_REDIS` is set. -/
def initRedisCardManager (cfg : BotConfig) (loadResult : Option Cards)
    (o : ConnectOutcome) : RState :=
  let st0 : RState :=
    { redis_available := false, fallback_count := 0
      last_fallback_time := 0, json_cards := [] }
  let st1 := load_json_fallback loadResult st0
  if cfg.ENABLE_REDIS then initialize_redis cfg o st1 else st1

/-- `RedisCardManager._redis_operation_with_fallback`: skip when Redis is
off; otherwise a slow or failing operation triggers the fallback and
yields `none`. -/
def redis_operation_with_fallback (cfg : BotConfig) (o : OpResult Card)
    (now : ℚ) (st : RState) : Option Card × RState :=
  if ¬ st.redis_available then (none, st)
  else
    match o with
    | .ok v lat =>
        if cfg.MAX_REDIS_LATENCY_MS < lat then (none, trigger_fallback now st)
        else (some v, st)
    | .exn => (none, trigger_fallback now st)

/-- First value bound to a key in an association list, with a default for
a missing key (Python `dict.get(key, default)`). -/
def lookupD (m : Cards) (k : String) : Card :=
  (List.lookup k m).getD []

/-- `RedisCardManager.get_card_data`: try Redis when available (an empty
dict result is falsy in Python and also falls through), else serve the
JSON fallback map, defaulting to the empty record. -/
def get_card_data (cfg : BotConfig) (o : OpResult Card) (now : ℚ)
    (card_name : String) (st : RState) : Card × RState :=
  if st.redis_available then
    match redis_operation_with_fallback cfg o now st with
    | (some v, st1) =>
        if v = [] then (lookupD st1.json_cards card_name, st1) else (v, st1)
    | (none, st1) => (lookupD st1.json_cards card_name, st1)
  else
    (lookupD st.json_cards card_name, st)

/-- The `FallbackManager.fallback_triggers` threshold table. -/
def fallback_triggers : List (String × ℚ) :=
  [("connection_lost", 0), ("timeout", 100), ("high_latency", 50),
   ("memory_full", 0), ("corruption", 0)]

/-- `FallbackManager.check_fallback_conditions`: a reason present in the
table trips immediately at threshold 0, or when the duration exceeds its
threshold; independently any duration above the generic 50 ms floor
trips. (`if error_type` in Python is false for `None` and for the empty
string.) -/
def check_fallback_conditions (operation_time_ms : ℚ)
    (error_type : Option String) : Bool :=
  let generic := decide (operation_time_ms > 50)
  match error_type with
  | some e =>
      if e ≠ "" then
        match List.lookup e fallback_triggers with
        | some threshold =>
            if threshold = 0 then true
            else if operation_time_ms > threshold then true
            else generic
        | none => generic
      else generic
  | none => generic

/-- `FallbackManager.execute_fallback`: disable Redis, make sure the JSON
fallback map is loaded, bump `fallback_count`, stamp
`last_fallback_time`. The reason string is only logged. -/
def execute_fallback (loadResult : Option Cards) (now : ℚ)
    (reason : String) (st : RState) : RState :=
  let _ := reason
  let st1 := { st with redis_available := false }
  let st2 := if st1.json_cards = [] then load_json_fallback loadResult st1 else st1
  { st2 with
    fallback_count := st2.fallback_count + 1
    last_fallback_time := now }

/-- The controller trip as the spec describes it: decide with
`check_fallback_conditions`, and on a qualifying trip run
`execute_fallback`; otherwise the state is untouched. -/
def trip (loadResult : Option Cards) (now : ℚ) (reason : String)
    (d : ℚ) (st : RState) : RState :=
  if check_fallback_conditions d (some reason) then
    execute_fallback loadResult now reason st
  else st

/-- `FallbackManager.attempt_recovery`: refuse when Redis is disabled in
config; otherwise rerun `_initialize_redis` (which catches its own
exceptions) and report whether availability came back. -/
def attempt_recovery (cfg : BotConfig) (o : ConnectOutcome)
    (st : RState) : Bool × RState :=
  if ¬ cfg.ENABLE_REDIS then (false, st)
  else
    let st1 := initialize_redis cfg o st
    if st1.redis_available then (true, st1) else (false, st1)

/-- `RedisCardManager.store_card`: returns false without touching anything
when Redis is off; otherwise the hash/sorted-set writes all go through
`_redis_operation_with_fallback`, which swallows its own errors, so the
call returns true even when a slow or failing write tripped the fallback
mid-way. `o` summarizes the outcome of the wrapped Redis writes of this
call. -/
def store_card (cfg : BotConfig) (o : OpResult Unit) (now : ℚ)
    (st : RState) : Bool × RState :=
  if ¬ st.redis_available then (false, st)
  else
    match o with
    | .ok _ lat =>
        if cfg.MAX_REDIS_LATENCY_MS < lat then (true, trigger_fallback now st)
        else (true, st)
    | .exn => (true, trigger_fallback now st)

/-- The `for card_name, card_data in backup_data.items()` loop of
`DataBackupManager.restore_from_json`: one `store_card` per record, the
i-th call observing outcome `outs i`; returns the `restored_count` of
successful puts together with the final state. -/
def restore_loop (cfg : BotConfig) (now : ℚ) (outs : ℕ → OpResult Unit) :
    Cards → ℕ → RState → ℕ × RState
  | [], _, st => (0, st)
  | _ :: rest, i, st =>
      let (ok, st1) := store_card cfg (outs i) now st
      let (cnt, st2) := restore_loop cfg now outs rest (i + 1) st1
      ((if ok then 1 else 0) + cnt, st2)

/-- `DataBackupManager.restore_from_json`: false when Redis is off or the
file cannot be opened or parsed (`file = none`); otherwise it runs the
restore loop, logs the count, and returns the boolean true — the count
itself is not returned. -/
def restore_from_json (cfg : BotConfig) (now : ℚ) (file : Option Cards)
    (outs : ℕ → OpResult Unit) (st : RState) : Bool × RState :=
  if ¬ st.redis_available then (false, st)
  else
    match file with
    | none => (false, st)
    | some records =>
        let (_cnt, st1) := restore_loop cfg now outs records 0 st
        (true, st1)

/-- `DataBackupManager.backup_to_json`: refuses (false, no file) when Redis
is off; otherwise `exportOk` abstracts whether the enumeration and the
file write inside the try succeeded. Returns the boolean result and the
number of backup files created (1 on a successful export, else 0). -/
def backup_to_json (exportOk : Bool) (st : RState) : Bool × ℕ :=
  if ¬ st.redis_available then (false, 0)
  else if exportOk then (true, 1) else (false, 0)

/-- `DataBackupManager.auto_backup`: read the marker (0 when the marker
file is absent); when `now - last >= interval` run the export and, only
when it returned true, rewrite the marker to `now` and return true; in
every other case return false with the marker untouched. Result:
(returned bool, marker after the call, backup files created). -/
def auto_backup (interval : ℚ) (now : ℚ) (marker : Option ℚ)
    (exportOk : Bool) (st : RState) : Bool × Option ℚ × ℕ :=
  let last := marker.getD 0
  if now - last ≥ interval then
    match backup_to_json exportOk st with
    | (true, n) => (true, some now, n)
    | (false, n) => (false, marker, n)
  else (false, marker, 0)

/-- The monitor state `should_disable_features` reads: the decision-time
deque and the fallback-event timestamps. -/
structure PMState where
  decision_times : List ℚ
  fallback_events : List ℚ
  deriving Repr, DecidableEq

/-- `PerformanceMonitor.decision_time_critical` (500 ms). -/
def decision_time_critical : ℚ := 500

/-- `list(self.decision_times)[-10:]` followed by the mean: the average of
the most recent 10 decision samples. -/
def recent_decision_avg (st : PMState) : ℚ :=
  let recent := st.decision_times.drop (st.decision_times.length - 10)
  recent.sum / (recent.length : ℚ)

/-- The `recent_fallbacks` filter: events whose timestamp is within the
last 60 seconds of `now`. -/
def recent_fallback_count (now : ℚ) (st : PMState) : ℕ :=
  (st.fallback_events.filter (fun e => now - e < 60)).length

/-- `PerformanceMonitor.should_disable_features`: false outright when
fewer than 10 decision samples exist; else true when the recent average
exceeds the critical threshold, or when more than 5 fallback events
happened in the last minute. -/
def should_disable_features (now : ℚ) (st : PMState) : Bool :=
  if st.decision_times.length < 10 then false
  else if recent_decision_avg st > decision_time_critical then true
  else if recent_fallback_count now st > 5 then true
  else false

/-- The state of `FeatureManager`: the flag map and the in-memory record
of last test results. -/
structure FMState where
  features : List (String × Bool)
  feature_tests : List (String × Bool)
  deriving Repr, DecidableEq

/-- The initial `self.features` dict. -/
def initFeatures : List (String × Bool) :=
  [("REDIS", false), ("LEARNING", false), ("COUNTER_STRATEGY", false),
   ("OPPONENT_TRACKING", false), ("PERFORMANCE_MONITORING", true)]

/-- Python `key in dict`. -/
def containsKey (m : List (String × Bool)) (k : String) : Bool :=
  (List.lookup k m).isSome

/-- Python `dict[key] = v` for a key already present: rewrite its value in
place. -/
def setAssoc : List (String × Bool) → String → Bool → List (String × Bool)
  | [], _, _ => []
  | (a, b) :: t, k, v =>
      if a = k then (k, v) :: setAssoc t k v else (a, b) :: setAssoc t k v

/-- Python `dict[key] = v` when the key may be absent: record under `k`,
shadowing any previous entry. -/
def recordTest (m : List (String × Bool)) (k : String) (v : Bool) :
    List (String × Bool) :=
  (k, v) :: m.filter (fun p => p.1 ≠ k)

/-- What a registered self-test did during one call: returned true,
returned false, or raised (caught by `_test_feature` and recorded as a
failure). -/
inductive TestOutcome where
  | passed
  | failed
  | raised
  deriving Repr, DecidableEq

/-- The boolean `_test_feature` derives from a test run: only a test that
returned true counts. -/
def test_outcome_result : TestOutcome → Bool
  | .passed => true
  | .failed => false
  | .raised => false

/-- The keys of the `test_results` table in `_test_feature`. -/
def test_registry : List String :=
  ["REDIS", "LEARNING", "COUNTER_STRATEGY", "OPPONENT_TRACKING",
   "PERFORMANCE_MONITORING"]

/-- `FeatureManager._test_feature`: an unregistered name is false without
a record; `PERFORMANCE_MONITORING` is the constant-true lambda; every
other registered test is a real probe whose behaviour this call observes
through `oracle`; the result (false on a raise) is recorded in
`feature_tests`. -/
def test_feature (oracle : String → TestOutcome) (name : String)
    (st : FMState) : Bool × FMState :=
  if name ∈ test_registry then
    let r := if name = "PERFORMANCE_MONITORING" then true
             else test_outcome_result (oracle name)
    (r, { st with feature_tests := recordTest st.feature_tests name r })
  else (false, st)

/-- The pure value `_test_feature` returns for a name under a given
oracle. -/
def test_result (oracle : String → TestOutcome) (name : String) : Bool :=
  if name ∈ test_registry then
    if name = "PERFORMANCE_MONITORING" then true
    else test_outcome_result (oracle name)
  else false

/-- `FeatureManager.enable_feature`: unknown names fail untouched; without
`force` the self-test must return true during this very call before the
flag is set; `force` skips the test. (`save_feature_flags` is best-effort
file I/O and does not affect this state.) -/
def enable_feature (oracle : String → TestOutcome) (feature_name : String)
    (force : Bool) (st : FMState) : Bool × FMState :=
  if ¬ containsKey st.features feature_name then (false, st)
  else if force then
    (true, { st with features := setAssoc st.features feature_name true })
  else
    let (ok, st1) := test_feature oracle feature_name st
    if ok then
      (true, { st1 with features := setAssoc st1.features feature_name true })
    else (false, st1)

/-- `FeatureManager.is_feature_enabled`. -/
def is_feature_enabled (st : FMState) (feature_name : String) : Bool :=
  ((List.lookup feature_name st.features).getD false)

/-- The default `features_order` of `gradual_rollout`. -/
def default_rollout_order : List String :=
  ["REDIS", "OPPONENT_TRACKING", "COUNTER_STRATEGY", "LEARNING"]

/-- `FeatureManager.gradual_rollout`: walk the order; a name not in
`self.features` is only logged and skipped; a known name is enabled (with
self-test) and a failed enable breaks the loop. Also returns the list of
names for which `enable_feature` was actually invoked. -/
def gradual_rollout (oracle : String → TestOutcome) :
    List String → FMState → FMState × List String
  | [], st => (st, [])
  | f :: rest, st =>
      if containsKey st.features f then
        let (ok, st1) := enable_feature oracle f false st
        if ok then
          let (st2, attempted) := gradual_rollout oracle rest st1
          (st2, f :: attempted)
        else (st1, [f])
      else gradual_rollout oracle rest st

/-- One observable operation on the shared `RedisCardManager` state, with
its effect parameters; used to state invariants over every operation of
the store layer. -/
inductive StoreOp where
  | opLoadJsonFallback (loadResult : Option Cards)
  | opTriggerFallback (now : ℚ)
  | opInitializeRedis (cfg : BotConfig) (o : ConnectOutcome)
  | opRedisOperation (cfg : BotConfig) (o : OpResult Card) (now : ℚ)
  | opGetCardData (cfg : BotConfig) (o : OpResult Card) (now : ℚ) (name : String)
  | opTrip (loadResult : Option Cards) (now : ℚ) (reason : String) (d : ℚ)
  | opExecuteFallback (loadResult : Option Cards) (now : ℚ) (reason : String)
  | opAttemptRecovery (cfg : BotConfig) (o : ConnectOutcome)
  | opStoreCard (cfg : BotConfig) (o : OpResult Unit) (now : ℚ)
  | opRestoreFromJson (cfg : BotConfig) (now : ℚ) (file : Option Cards)
      (outs : ℕ → OpResult Unit)

/-- The state transformer of each operation. -/
def applyOp : StoreOp → RState → RState
  | .opLoadJsonFallback lr, st => load_json_fallback lr st
  | .opTriggerFallback now, st => trigger_fallback now st
  | .opInitializeRedis cfg o, st => initialize_redis cfg o st
  | .opRedisOperation cfg o now, st => (redis_operation_with_fallback cfg o now st).2
  | .opGetCardData cfg o now n, st => (get_card_data cfg o now n st).2
  | .opTrip lr now r d, st => trip lr now r d st
  | .opExecuteFallback lr now r, st => execute_fallback lr now r st
  | .opAttemptRecovery cfg o, st => (attempt_recovery cfg o st).2
  | .opStoreCard cfg o now, st => (store_card cfg o now st).2
  | .opRestoreFromJson cfg now f outs, st => (restore_from_json cfg now f outs st).2

/-- Python treats booleans as the integers 0 and 1; comparing a boolean
return value with a count goes through this coercion. -/
def pyBoolToInt (b : Bool) : ℕ := if b then 1 else 0

/-! ### Helper lemmas -/

theorem load_json_fallback_count (lr : Option Cards) (st : RState) :
    (load_json_fallback lr st).fallback_count = st.fallback_count := by
  cases lr <;> rfl

theorem load_json_fallback_avail (lr : Option Cards) (st : RState) :
    (load_json_fallback lr st).redis_available = st.redis_available := by
  cases lr <;> rfl

theorem execute_fallback_count (lr : Option Cards) (now : ℚ) (r : String)
    (st : RState) :
    (execute_fallback lr now r st).fallback_count = st.fallback_count + 1 := by
  unfold execute_fallback
  dsimp only
  split <;> simp [load_json_fallback_count]

theorem execute_fallback_avail (lr : Option Cards) (now : ℚ) (r : String)
    (st : RState) :
    (execute_fallback lr now r st).redis_available = false := by
  unfold execute_fallback
  dsimp only
  split <;> simp [load_json_fallback_avail]

theorem trigger_fallback_count (now : ℚ) (st : RState) :
    (trigger_fallback now st).fallback_count = st.fallback_count + 1 := rfl

theorem redis_operation_count_mono (cfg : BotConfig) (o : OpResult Card)
    (now : ℚ) (st : RState) :
    st.fallback_count ≤ (redis_operation_with_fallback cfg o now st).2.fallback_count := by
  unfold redis_operation_with_fallback
  split
  · exact le_refl _
  · cases o with
    | ok v lat =>
        dsimp only
        split
        · simp [trigger_fallback_count]
        · exact le_refl _
    | exn => simp [trigger_fallback_count]

theorem store_card_count_mono (cfg : BotConfig) (o : OpResult Unit)
    (now : ℚ) (st : RState) :
    st.fallback_count ≤ (store_card cfg o now st).2.fallback_count := by
  unfold store_card
  split
  · exact le_refl _
  · cases o with
    | ok v lat =>
        dsimp only
        split
        · simp [trigger_fallback_count]
        · exact le_refl _
    | exn => simp [trigger_fallback_count]

theorem restore_loop_count_mono (cfg : BotConfig) (now : ℚ)
    (outs : ℕ → OpResult Unit) (records : Cards) (i : ℕ) (st : RState) :
    st.fallback_count ≤ (restore_loop cfg now outs records i st).2.fallback_count := by
  induction records generalizing i st with
  | nil => exact le_refl _
  | cons r rest ih =>
      unfold restore_loop
      dsimp only
      exact le_trans (store_card_count_mono cfg (outs i) now st) (ih _ _)

theorem check_zero_threshold (reason : String) (d : ℚ)
    (h : List.lookup reason fallback_triggers = some 0) :
    check_fallback_conditions d (some reason) = true := by
  have hne : reason ≠ "" := by
    intro he
    rw [he] at h
    exact absurd h (by decide)
  unfold check_fallback_conditions
  dsimp only
  rw [if_pos hne, h]
  simp

theorem check_below_thresholds (reason : String) (t d : ℚ)
    (h : List.lookup reason fallback_triggers = some t) (ht0 : t ≠ 0)
    (hdt : d < t) (hd50 : d < 50) :
    check_fallback_conditions d (some reason) = false := by
  have hne : reason ≠ "" := by
    intro he
    rw [he] at h
    have hnone : List.lookup "" fallback_triggers = (none : Option ℚ) := rfl
    rw [hnone] at h
    exact Option.noConfusion h
  unfold check_fallback_conditions
  dsimp only
  rw [if_pos hne, h]
  dsimp only
  rw [if_neg ht0, if_neg (lt_asymm hdt)]
  simp only [decide_eq_false_iff_not]
  exact lt_asymm hd50

theorem initialize_redis_count_mono (cfg : BotConfig) (o : ConnectOutcome)
    (st : RState) :
    st.fallback_count ≤ (initialize_redis cfg o st).fallback_count := by
  unfold initialize_redis
  cases o with
  | ok lat =>
      dsimp only
      split <;> exact le_refl _
  | exn => exact Nat.le_succ _

theorem get_card_data_count_mono (cfg : BotConfig) (o : OpResult Card)
    (now : ℚ) (name : String) (st : RState) :
    st.fallback_count ≤ (get_card_data cfg o now name st).2.fallback_count := by
  unfold get_card_data
  split
  · have hm := redis_operation_count_mono cfg o now st
    rcases hrop : redis_operation_with_fallback cfg o now st with ⟨res, st1⟩
    rw [hrop] at hm
    cases res with
    | some v =>
        dsimp only
        split <;> exact hm
    | none => exact hm
  · exact le_refl _

/-! ### C1 -/

/-- C1: the trip decision follows the threshold table exactly — a reason
mapped to threshold 0 flips availability to false for every duration,
and a reason with a nonzero threshold leaves the state untouched when the
duration is below both that threshold and the generic 50 ms floor. -/
theorem trip_threshold_table_rule :
    (∀ (lr : Option Cards) (now : ℚ) (reason : String) (d : ℚ) (st : RState),
        List.lookup reason fallback_triggers = some 0 →
        (trip lr now reason d st).redis_available = false) ∧
    (∀ (lr : Option Cards) (now : ℚ) (reason : String) (t d : ℚ) (st : RState),
        List.lookup reason fallback_triggers = some t → t ≠ 0 →
        d < t → d < 50 →
        trip lr now reason d st = st) := by
  constructor
  · intro lr now reason d st h
    unfold trip
    rw [check_zero_threshold reason d h]
    simp [execute_fallback_avail]
  · intro lr now reason t d st h ht0 hdt hd50
    unfold trip
    rw [check_below_thresholds reason t d h ht0 hdt hd50]
    simp

/-- Witness for C1: `connection_lost` (threshold 0) trips at any duration,
and `timeout` at 30 ms (below 100 and below 50) leaves the state as it
was. -/
theorem trip_threshold_table_rule_witness :
    (trip none 0 "connection_lost" 9999 ⟨true, 0, 0, [("Knight", [])]⟩).redis_available
        = false ∧
    trip none 0 "timeout" 30 ⟨true, 0, 0, [("Knight", [])]⟩
        = ⟨true, 0, 0, [("Knight", [])]⟩ :=
  ⟨trip_threshold_table_rule.1 none 0 "connection_lost" 9999 _ (by decide),
   trip_threshold_table_rule.2 none 0 "timeout" 100 30 _ (by decide) (by decide)
     (by decide) (by decide)⟩

/-! ### C2 -/

/-- C2: `fallback_count` never decreases under any operation of the store
layer, and every qualifying trip — `execute_fallback`, reached whenever
`check_fallback_conditions` answered true — increments it by exactly 1,
for every starting state, including states already in fallback. -/
theorem fallback_count_monotone :
    (∀ (op : StoreOp) (st : RState),
        st.fallback_count ≤ (applyOp op st).fallback_count) ∧
    (∀ (lr : Option Cards) (now : ℚ) (reason : String) (st : RState),
        (execute_fallback lr now reason st).fallback_count = st.fallback_count + 1) ∧
    (∀ (lr : Option Cards) (now : ℚ) (reason : String) (d : ℚ) (st : RState),
        check_fallback_conditions d (some reason) = true →
        (trip lr now reason d st).fallback_count = st.fallback_count + 1) := by
  refine ⟨?_, ?_, ?_⟩
  · intro op st
    cases op with
    | opLoadJsonFallback lr => simp [applyOp, load_json_fallback_count]
    | opTriggerFallback now => simp [applyOp, trigger_fallback_count]
    | opInitializeRedis cfg o => exact initialize_redis_count_mono cfg o st
    | opRedisOperation cfg o now => exact redis_operation_count_mono cfg o now st
    | opGetCardData cfg o now n => exact get_card_data_count_mono cfg o now n st
    | opTrip lr now r d =>
        show st.fallback_count ≤ (trip lr now r d st).fallback_count
        unfold trip
        split
        · rw [execute_fallback_count]
          exact Nat.le_succ _
        · exact le_refl _
    | opExecuteFallback lr now r =>
        show st.fallback_count ≤ (execute_fallback lr now r st).fallback_count
        rw [execute_fallback_count]
        exact Nat.le_succ _
    | opAttemptRecovery cfg o =>
        show st.fallback_count ≤ (attempt_recovery cfg o st).2.fallback_count
        unfold attempt_recovery
        dsimp only
        split
        · exact le_refl _
        · split
          · exact initialize_redis_count_mono cfg o st
          · exact initialize_redis_count_mono cfg o st
    | opStoreCard cfg o now => exact store_card_count_mono cfg o now st
    | opRestoreFromJson cfg now f outs =>
        show st.fallback_count ≤ (restore_from_json cfg now f outs st).2.fallback_count
        unfold restore_from_json
        split
        · exact le_refl _
        · cases f with
          | none => exact le_refl _
          | some records =>
              dsimp only
              exact restore_loop_count_mono cfg now outs records 0 st
  · intro lr now reason st
    exact execute_fallback_count lr now reason st
  · intro lr now reason d st h
    unfold trip
    rw [h]
    simp [execute_fallback_count]

/-- Witness for C2: a qualifying `timeout` trip at 200 ms on a state
already in fallback mode moves the counter from 3 to exactly 4. -/
theorem fallback_count_monotone_witness :
    (trip none 5 "timeout" 200 ⟨false, 3, 0, [("Knight", [])]⟩).fallback_count = 4 :=
  fallback_count_monotone.2.2 none 5 "timeout" 200 ⟨false, 3, 0, [("Knight", [])]⟩
    (by decide)

/-! ### C3 -/

/-- Counterexample to C3 as stated: with Redis enabled in config, a
recovery attempt whose reconnection raises returns false — a failure —
yet does not leave the shared state unchanged: `_initialize_redis`
increments `fallback_count` on the exception path (0 becomes 1 here). -/
theorem attempt_recovery_failure_mutates_state :
    (attempt_recovery ⟨true, 50⟩ .exn ⟨false, 0, 0, []⟩).1 = false ∧
    (attempt_recovery ⟨true, 50⟩ .exn ⟨false, 0, 0, []⟩).2 ≠ ⟨false, 0, 0, []⟩ ∧
    (attempt_recovery ⟨true, 50⟩ .exn ⟨false, 0, 0, []⟩).2.fallback_count = 1 := by
  refine ⟨rfl, ?_, rfl⟩
  intro h
  have := congrArg RState.fallback_count h
  simp [attempt_recovery, initialize_redis] at this

/-- C3 amended: `attemptRecovery` never raises (every exception path of
`_initialize_redis` is absorbed into a return value); success sets
availability to true; failure returns false, never touches
`lastFallbackTime` or the card map, and leaves availability false when
starting from fallback — but when the reconnection fails with an
exception (Redis enabled), `fallbackCount` is incremented by 1; it is
unchanged on every other path. -/
theorem attempt_recovery_amended (cfg : BotConfig) (o : ConnectOutcome)
    (st : RState) :
    ((attempt_recovery cfg o st).1 = true →
      (attempt_recovery cfg o st).2.redis_available = true) ∧
    (attempt_recovery cfg o st).2.last_fallback_time = st.last_fallback_time ∧
    (attempt_recovery cfg o st).2.json_cards = st.json_cards ∧
    (st.redis_available = false → (attempt_recovery cfg o st).1 = false →
      (attempt_recovery cfg o st).2.redis_available = false) ∧
    (attempt_recovery cfg o st).2.fallback_count =
      (if cfg.ENABLE_REDIS = true ∧ o = ConnectOutcome.exn
        then st.fallback_count + 1 else st.fallback_count) := by
  unfold attempt_recovery initialize_redis
  rcases hEn : cfg.ENABLE_REDIS with _ | _
  · simp [hEn]
  · cases o with
    | ok lat =>
        by_cases hlt : cfg.MAX_REDIS_LATENCY_MS < lat
        · simp [hEn, hlt]
        · simp [hEn, hlt]
    | exn => simp [hEn]

/-- Witness for C3 amended: a successful reconnection at 10 ms restores
availability, and a failed one from fallback keeps availability false
while bumping the counter from 2 to 3. -/
theorem attempt_recovery_amended_witness :
    (attempt_recovery ⟨true, 50⟩ (.ok 10) ⟨false, 2, 7, []⟩).2.redis_available = true ∧
    (attempt_recovery ⟨true, 50⟩ .exn ⟨false, 2, 7, []⟩).2.redis_available = false ∧
    (attempt_recovery ⟨true, 50⟩ .exn ⟨false, 2, 7, []⟩).2.fallback_count = 3 :=
  ⟨(attempt_recovery_amended ⟨true, 50⟩ (.ok 10) ⟨false, 2, 7, []⟩).1 (by decide),
   (attempt_recovery_amended ⟨true, 50⟩ .exn ⟨false, 2, 7, []⟩).2.2.2.1 (by decide)
     (by decide),
   by
    have h := (attempt_recovery_amended ⟨true, 50⟩ .exn ⟨false, 2, 7, []⟩).2.2.2.2
    simpa using h⟩

/-! ### C4 -/

/-- C4: under total failure — snapshot load failed (absent or malformed
file) and the remote store unreachable (the connect raised, or Redis is
disabled) — startup yields an empty map with availability off, and
`get_card_data "Knight"` returns the empty record with the state
untouched; no path raises. -/
theorem total_failure_empty_record (cfg : BotConfig) (o : ConnectOutcome)
    (op : OpResult Card) (now : ℚ) (name : String)
    (h : o.isExn = true ∨ cfg.ENABLE_REDIS = false) :
    (initRedisCardManager cfg none o).json_cards = [] ∧
    (initRedisCardManager cfg none o).redis_available = false ∧
    get_card_data cfg op now name (initRedisCardManager cfg none o)
      = ([], initRedisCardManager cfg none o) := by
  have hstate : (initRedisCardManager cfg none o).json_cards = [] ∧
      (initRedisCardManager cfg none o).redis_available = false := by
    unfold initRedisCardManager load_json_fallback
    rcases h with h | h
    · cases o with
      | ok lat => exact absurd h (by simp [ConnectOutcome.isExn])
      | exn =>
          rcases hEn : cfg.ENABLE_REDIS with _ | _
          · simp [hEn]
          · simp [hEn, initialize_redis]
    · simp [h]
  refine ⟨hstate.1, hstate.2, ?_⟩
  unfold get_card_data
  rw [if_neg (by rw [hstate.2]; exact Bool.false_ne_true)]
  rw [hstate.1]
  rfl

/-- Witness for C4: a missing snapshot plus a raising connect leaves the
process serving the empty record for "Knight". -/
theorem total_failure_empty_record_witness :
    get_card_data ⟨true, 50⟩ (.exn) 0 "Knight" (initRedisCardManager ⟨true, 50⟩ none .exn)
      = ([], initRedisCardManager ⟨true, 50⟩ none .exn) :=
  (total_failure_empty_record ⟨true, 50⟩ .exn .exn 0 "Knight" (Or.inl rfl)).2.2

/-! ### C5 -/

unseal Rat.sub in
/-- Counterexample to C5 as stated: six fallback events inside the last
60 seconds — condition (b) of the claim — yet `should_disable_features`
answers false, because no 10 decision samples exist and the guard
`len(self.decision_times) < 10` returns early. -/
theorem should_disable_ignores_fallbacks :
    5 < recent_fallback_count 100 ⟨[], [50, 55, 60, 65, 70, 75]⟩ ∧
    should_disable_features 100 ⟨[], [50, 55, 60, 65, 70, 75]⟩ = false := by
  constructor
  · decide
  · rfl

/-- C5 amended: with fewer than 10 decision samples the function returns
false unconditionally; once at least 10 samples exist it returns true
exactly when the mean of the most recent 10 samples exceeds the 500 ms
critical threshold or more than 5 fallback events occurred within the
last 60 seconds. It is read-only: it takes the monitor state and yields
only a boolean. -/
theorem should_disable_features_amended (now : ℚ) (st : PMState) :
    (st.decision_times.length < 10 → should_disable_features now st = false) ∧
    (10 ≤ st.decision_times.length →
      (should_disable_features now st = true ↔
        (decision_time_critical < recent_decision_avg st ∨
          5 < recent_fallback_count now st))) := by
  constructor
  · intro h
    unfold should_disable_features
    rw [if_pos h]
  · intro h
    unfold should_disable_features
    rw [if_neg (by omega)]
    by_cases ha : recent_decision_avg st > decision_time_critical
    · simp [ha]
    · rw [if_neg ha]
      by_cases hb : recent_fallback_count now st > 5
      · simp [ha, hb]
      · simp [ha, hb]

unseal Rat.mul Rat.inv Rat.add Rat.sub in
/-- Witness for C5 amended: ten samples of 600 ms average above the
threshold, so the policy fires. -/
theorem should_disable_features_amended_witness :
    should_disable_features 0
      ⟨[600, 600, 600, 600, 600, 600, 600, 600, 600, 600], []⟩ = true :=
  ((should_disable_features_amended 0
      ⟨[600, 600, 600, 600, 600, 600, 600, 600, 600, 600], []⟩).2
    (by decide)).mpr (Or.inl (by decide))

/-! ### C9 -/

/-- C9: with fewer than 10 recorded decision samples
`should_disable_features` is false no matter what the fallback history
holds — the fallback-frequency branch is never reached. -/
theorem should_disable_needs_ten_samples (now : ℚ) (st : PMState)
    (h : st.decision_times.length < 10) :
    should_disable_features now st = false := by
  unfold should_disable_features
  rw [if_pos h]

/-- Witness for C9: three samples and six recent fallback events still
answer false. -/
theorem should_disable_needs_ten_samples_witness :
    should_disable_features 100 ⟨[1, 2, 3], [95, 96, 97, 98, 96, 99]⟩ = false :=
  should_disable_needs_ten_samples 100 ⟨[1, 2, 3], [95, 96, 97, 98, 96, 99]⟩
    (by decide)

/-! ### C6 -/

theorem lookup_setAssoc (m : List (String × Bool)) (k k2 : String) (v : Bool) :
    List.lookup k (setAssoc m k2 v) =
      if k = k2 then (List.lookup k m).map (fun _ => v) else List.lookup k m := by
  induction m with
  | nil => by_cases h : k = k2 <;> simp [setAssoc, h]
  | cons p t ih =>
      rcases p with ⟨a, b⟩
      by_cases hak : a = k2
      · by_cases hk : k = k2
        · have hka : k = a := hk.trans hak.symm
          simp [setAssoc, hak, hk, hka, List.lookup_cons]
        · have hka : ¬ k = a := fun he => hk (he.trans hak)
          simp [setAssoc, hak, hk, beq_false_of_ne hka, beq_false_of_ne hk,
            List.lookup_cons, ih]
      · by_cases hka : k = a
        · have hk : ¬ k = k2 := fun he => hak (hka.symm.trans he)
          simp [setAssoc, hak, hk, hka, List.lookup_cons]
        · by_cases hk : k = k2
          · subst hk
            simp [setAssoc, hak, beq_false_of_ne hka, List.lookup_cons, ih]
          · simp [setAssoc, hak, hk, beq_false_of_ne hka, List.lookup_cons, ih]

theorem containsKey_setAssoc (m : List (String × Bool)) (k k2 : String) (v : Bool) :
    containsKey (setAssoc m k2 v) k = containsKey m k := by
  unfold containsKey
  rw [lookup_setAssoc]
  by_cases h : k = k2
  · rw [if_pos h]
    cases List.lookup k m <;> rfl
  · rw [if_neg h]

theorem test_feature_fst (oracle : String → TestOutcome) (name : String)
    (st : FMState) :
    (test_feature oracle name st).1 = test_result oracle name := by
  unfold test_feature test_result
  by_cases h : name ∈ test_registry <;> simp [h]

theorem test_feature_features (oracle : String → TestOutcome) (name : String)
    (st : FMState) :
    (test_feature oracle name st).2.features = st.features := by
  unfold test_feature
  by_cases h : name ∈ test_registry <;> simp [h]

/-- C6: starting from a disabled feature, `enable_feature` with
`force = false` ends with the flag true only when the self-test run
during that very call returned true; when the test failed or raised
(recorded as a failure), the flag is still false afterwards and the call
returns false. -/
theorem enable_requires_passing_test (oracle : String → TestOutcome)
    (name : String) (st : FMState)
    (h : List.lookup name st.features = some false) :
    (List.lookup name (enable_feature oracle name false st).2.features = some true →
        test_result oracle name = true) ∧
    (test_result oracle name = false →
        List.lookup name (enable_feature oracle name false st).2.features = some false ∧
        (enable_feature oracle name false st).1 = false) := by
  have hck : containsKey st.features name = true := by
    unfold containsKey
    rw [h]
    rfl
  have hfst := test_feature_fst oracle name st
  have hfeat := test_feature_features oracle name st
  unfold enable_feature
  rw [if_neg (by rw [hck]; simp)]
  simp only [Bool.false_eq_true, if_false]
  rcases htf : test_feature oracle name st with ⟨ok, st1⟩
  rw [htf] at hfst hfeat
  dsimp only at hfst hfeat ⊢
  cases ok with
  | true =>
      rw [if_pos rfl]
      constructor
      · intro _
        exact hfst.symm
      · intro habs
        exact absurd (hfst.trans habs) (by decide)
  | false =>
      rw [if_neg Bool.false_ne_true]
      constructor
      · intro habs
        rw [hfeat, h] at habs
        exact absurd habs (by decide)
      · intro _
        rw [hfeat, h]
        exact ⟨rfl, rfl⟩

/-- Witness for C6: with every probe failing, enabling "LEARNING" from
the default flag map leaves it disabled and reports failure. -/
theorem enable_requires_passing_test_witness :
    List.lookup "LEARNING"
      (enable_feature (fun _ => .failed) "LEARNING" false ⟨initFeatures, []⟩).2.features
      = some false ∧
    (enable_feature (fun _ => .failed) "LEARNING" false ⟨initFeatures, []⟩).1 = false :=
  (enable_requires_passing_test (fun _ => .failed) "LEARNING" ⟨initFeatures, []⟩
    (by decide)).2 (by decide)

/-! ### C7 -/

/-- Counterexample to C7 as stated: a backup file holding two records,
both puts succeeding — the internal `restored_count` is 2, but
`restore_from_json` returns the boolean `True` (the integer 1), not the
count of successful puts. -/
theorem restore_returns_bool_not_count :
    (restore_loop ⟨true, 50⟩ 0 (fun _ => .ok () 1)
        [("Knight", []), ("Archers", [])] 0 ⟨true, 0, 0, []⟩).1 = 2 ∧
    (restore_from_json ⟨true, 50⟩ 0 (some [("Knight", []), ("Archers", [])])
        (fun _ => .ok () 1) ⟨true, 0, 0, []⟩).1 = true ∧
    pyBoolToInt (restore_from_json ⟨true, 50⟩ 0 (some [("Knight", []), ("Archers", [])])
        (fun _ => .ok () 1) ⟨true, 0, 0, []⟩).1 ≠ 2 := by
  refine ⟨by decide, by decide, by decide⟩

/-- C7 amended: `restore_from_json` performs a put per record and counts
the successes, but returns only a boolean: false (state untouched, no
throw) when the remote store is unavailable or the file is missing or
unreadable, and true whenever the file was read, regardless of the
count. -/
theorem restore_from_json_amended (cfg : BotConfig) (now : ℚ)
    (file : Option Cards) (outs : ℕ → OpResult Unit) (st : RState) :
    (st.redis_available = false → restore_from_json cfg now file outs st = (false, st)) ∧
    (file = none → restore_from_json cfg now file outs st = (false, st)) ∧
    (∀ records, file = some records → st.redis_available = true →
        (restore_from_json cfg now file outs st).1 = true) := by
  refine ⟨?_, ?_, ?_⟩
  · intro h
    unfold restore_from_json
    rw [if_pos (by rw [h]; simp)]
  · intro h
    subst h
    unfold restore_from_json
    split
    · rfl
    · rfl
  · intro records h hr
    subst h
    unfold restore_from_json
    rw [if_neg (by rw [hr]; simp)]

/-- Witness for C7 amended: a missing file returns false untouched, and a
present two-record file returns true. -/
theorem restore_from_json_amended_witness :
    restore_from_json ⟨true, 50⟩ 0 none (fun _ => .ok () 1) ⟨true, 0, 0, []⟩
      = (false, ⟨true, 0, 0, []⟩) ∧
    (restore_from_json ⟨true, 50⟩ 0 (some [("Knight", []), ("Archers", [])])
        (fun _ => .ok () 1) ⟨true, 0, 0, []⟩).1 = true :=
  ⟨(restore_from_json_amended ⟨true, 50⟩ 0 none (fun _ => .ok () 1)
      ⟨true, 0, 0, []⟩).2.1 rfl,
   (restore_from_json_amended ⟨true, 50⟩ 0 (some [("Knight", []), ("Archers", [])])
      (fun _ => .ok () 1) ⟨true, 0, 0, []⟩).2.2 [("Knight", []), ("Archers", [])]
      rfl rfl⟩

/-! ### C8 -/

/-- C8: `auto_backup` leaves everything untouched when the interval has
not elapsed since the marker; it rewrites the marker (to `now`) only when
the export it triggered returned true; and two calls inside the same
interval — the first due, exports succeeding — create exactly one backup
file between them. -/
theorem auto_backup_interval_gated (interval now : ℚ) (marker : Option ℚ)
    (exportOk : Bool) (st : RState) :
    (¬ now - marker.getD 0 ≥ interval →
        auto_backup interval now marker exportOk st = (false, marker, 0)) ∧
    ((auto_backup interval now marker exportOk st).2.1 ≠ marker →
        (auto_backup interval now marker exportOk st).1 = true ∧
        (backup_to_json exportOk st).1 = true ∧
        (auto_backup interval now marker exportOk st).2.1 = some now) ∧
    (∀ now2 : ℚ, st.redis_available = true → exportOk = true →
        now - marker.getD 0 ≥ interval →
        now2 - now < interval →
        (auto_backup interval now marker exportOk st).2.2 +
          (auto_backup interval now2 (auto_backup interval now marker exportOk st).2.1
            exportOk st).2.2 = 1) := by
  refine ⟨?_, ?_, ?_⟩
  · intro h
    unfold auto_backup
    rw [if_neg h]
  · intro h
    unfold auto_backup at h ⊢
    dsimp only at h ⊢
    by_cases hdue : now - marker.getD 0 ≥ interval
    · rw [if_pos hdue] at h ⊢
      rcases hb : backup_to_json exportOk st with ⟨r, n⟩
      rw [hb] at h
      cases r
      · exact absurd rfl h
      · exact ⟨rfl, rfl, rfl⟩
    · rw [if_neg hdue] at h
      exact absurd rfl h
  · intro now2 hr he hdue hgap
    have hb : backup_to_json exportOk st = (true, 1) := by
      unfold backup_to_json
      rw [he, if_neg (by rw [hr]; simp)]
      rfl
    have h1 : auto_backup interval now marker exportOk st = (true, some now, 1) := by
      unfold auto_backup
      rw [if_pos hdue, hb]
    rw [h1]
    have h2 : auto_backup interval now2 (some now) exportOk st = (false, some now, 0) := by
      unfold auto_backup
      rw [if_neg (by simpa using not_le.mpr hgap)]
    rw [h2]
    rfl

unseal Rat.sub in
/-- Witness for C8: marker absent, first call at t=2000 exports once;
second call at t=2005 (within the 1800 s interval) does nothing — one
file in total. -/
theorem auto_backup_interval_gated_witness :
    (auto_backup 1800 2000 none true ⟨true, 0, 0, []⟩).2.2 +
      (auto_backup 1800 2005 (auto_backup 1800 2000 none true ⟨true, 0, 0, []⟩).2.1
        true ⟨true, 0, 0, []⟩).2.2 = 1 :=
  (auto_backup_interval_gated 1800 2000 none true ⟨true, 0, 0, []⟩).2.2 2005 rfl rfl
    (by decide) (by decide)

/-! ### C10 -/

theorem enable_feature_containsKey (oracle : String → TestOutcome) (f : String)
    (force : Bool) (st : FMState) (k : String) :
    containsKey (enable_feature oracle f force st).2.features k
      = containsKey st.features k := by
  unfold enable_feature
  split
  · rfl
  · split
    · exact containsKey_setAssoc st.features k f true
    · rcases htf : test_feature oracle f st with ⟨ok, st1⟩
      have hfeat := test_feature_features oracle f st
      rw [htf] at hfeat
      dsimp only at hfeat ⊢
      cases ok
      · rw [if_neg Bool.false_ne_true]
        dsimp only
        rw [hfeat]
      · rw [if_pos rfl]
        dsimp only
        rw [← hfeat]
        exact containsKey_setAssoc st1.features k f true

theorem gradual_rollout_filter_eq (oracle : String → TestOutcome)
    (order : List String) (st : FMState) :
    gradual_rollout oracle order st =
      gradual_rollout oracle (order.filter fun f => containsKey st.features f) st := by
  induction order generalizing st with
  | nil => rfl
  | cons f rest ih =>
      by_cases hf : containsKey st.features f = true
      · rw [List.filter_cons_of_pos hf]
        show (if containsKey st.features f = true then _ else _)
          = (if containsKey st.features f = true then _ else _)
        rw [if_pos hf, if_pos hf]
        rcases hen : enable_feature oracle f false st with ⟨ok, st1⟩
        have hkeys : ∀ x, containsKey st1.features x = containsKey st.features x := by
          intro x
          have h := enable_feature_containsKey oracle f false st x
          rw [hen] at h
          exact h
        dsimp only
        cases ok
        · rfl
        · have hcong : (rest.filter fun x => containsKey st1.features x)
              = rest.filter fun x => containsKey st.features x :=
            List.filter_congr (fun x _ => by rw [hkeys])
          rw [ih st1, hcong]
      · have hf0 : ¬ (fun g => containsKey st.features g) f = true := hf
        rw [List.filter_cons_of_neg hf0]
        show (if containsKey st.features f = true then _ else _) = _
        rw [if_neg hf]
        exact ih st

/-- C10: `gradual_rollout` skips a name missing from the registry —
logging only, the remaining order is still processed exactly as if the
unknown name were filtered out — continues past every successful enable,
and halts, leaving the rest untouched, exactly when the enable of a known
feature fails. -/
theorem gradual_rollout_skip_and_halt :
    (∀ (oracle : String → TestOutcome) (st : FMState) (f : String)
        (rest : List String),
        containsKey st.features f = false →
        gradual_rollout oracle (f :: rest) st = gradual_rollout oracle rest st) ∧
    (∀ (oracle : String → TestOutcome) (order : List String) (st : FMState),
        gradual_rollout oracle order st =
          gradual_rollout oracle (order.filter fun f => containsKey st.features f) st) ∧
    (∀ (oracle : String → TestOutcome) (st : FMState) (f : String)
        (rest : List String),
        containsKey st.features f = true →
        (enable_feature oracle f false st).1 = true →
        gradual_rollout oracle (f :: rest) st =
          ((gradual_rollout oracle rest (enable_feature oracle f false st).2).1,
            f :: (gradual_rollout oracle rest (enable_feature oracle f false st).2).2)) ∧
    (∀ (oracle : String → TestOutcome) (st : FMState) (f : String)
        (rest : List String),
        containsKey st.features f = true →
        (enable_feature oracle f false st).1 = false →
        gradual_rollout oracle (f :: rest) st
          = ((enable_feature oracle f false st).2, [f])) := by
  refine ⟨?_, ?_, ?_, ?_⟩
  · intro oracle st f rest hf
    show (if containsKey st.features f = true then _ else _) = _
    rw [if_neg (by rw [hf]; exact Bool.false_ne_true)]
  · exact gradual_rollout_filter_eq
  · intro oracle st f rest hf hen
    show (if containsKey st.features f = true then _ else _) = _
    rw [if_pos hf]
    rcases he : enable_feature oracle f false st with ⟨ok, st1⟩
    rw [he] at hen
    dsimp only at hen ⊢
    rw [hen, if_pos rfl]
  · intro oracle st f rest hf hen
    show (if containsKey st.features f = true then _ else _) = _
    rw [if_pos hf]
    rcases he : enable_feature oracle f false st with ⟨ok, st1⟩
    rw [he] at hen
    dsimp only at hen ⊢
    rw [hen, if_neg Bool.false_ne_true]

/-- Witness for C10: rolling out ["BOGUS", "LEARNING"] over the default
registry with failing probes skips the unknown "BOGUS" and halts at
"LEARNING"; rolling out ["BOGUS"] alone attempts nothing. -/
theorem gradual_rollout_skip_and_halt_witness :
    gradual_rollout (fun _ => .failed) ["BOGUS", "LEARNING"] ⟨initFeatures, []⟩
      = gradual_rollout (fun _ => .failed) ["LEARNING"] ⟨initFeatures, []⟩ ∧
    gradual_rollout (fun _ => .failed) ["LEARNING"] ⟨initFeatures, []⟩
      = ((enable_feature (fun _ => .failed) "LEARNING" false ⟨initFeatures, []⟩).2,
          ["LEARNING"]) :=
  ⟨gradual_rollout_skip_and_halt.1 (fun _ => .failed) ⟨initFeatures, []⟩ "BOGUS"
      ["LEARNING"] (by decide),
   gradual_rollout_skip_and_halt.2.2.2 (fun _ => .failed) ⟨initFeatures, []⟩
      "LEARNING" [] (by decide) (by decide)⟩
